import Mathlib

/-!
Verification development for a small Rust HTTP CRUD server (single source
file `src/main.rs`).  The server parses raw request text, routes it by
literal prefix match on the request line, extracts an id and/or a JSON
body, executes one SQL statement per request against a Postgres store, and
writes a plain-text HTTP response.

The embedding below translates the Rust source into Lean:
* Rust string combinators (`split`, `split_whitespace`, `starts_with`,
  `parse::<i32>`) become executable Lean functions on `List Char`/`String`;
* `serde_json` (an external library) is modelled by an executable JSON
  parser/serializer restricted to the constructs the program can exchange
  (integer numerals, the standard single-character escapes; no `\u` escapes,
  no fraction/exponent numerals);
* the external `postgres::Client` is modelled by a record of statement
  oracles, one per call site in the source; a concrete instance `pgClient`
  gives those oracles Postgres semantics over an explicit store state whose
  tables all carry the schema declared by this program
  (id, title, description);
* a `.unwrap()` on a statement result becomes the `panicked` outcome.
-/

/-! ## Rust string primitives -/

/-- Model of Rust `str::split(sep)` for a nonempty separator: left-to-right,
non-overlapping, keeping empty segments.  Structural recursion on a fuel
bound; each step consumes at least one character, so fuel equal to the
input length makes the fuel-exhaustion branch unreachable. -/
def splitOnFuel (sep : List Char) : Nat → List Char → List Char → List (List Char)
  | _, [], acc => [acc.reverse]
  | 0, s, acc => [acc.reverse ++ s]
  | fuel + 1, c :: rest, acc =>
    if sep ≠ [] ∧ sep.isPrefixOf (c :: rest) then
      acc.reverse :: splitOnFuel sep fuel ((c :: rest).drop sep.length) []
    else
      splitOnFuel sep fuel rest (c :: acc)

def splitOnList (sep : List Char) (s : List Char) : List (List Char) :=
  splitOnFuel sep s.length s []

/-- Model of Rust `str::split_whitespace`: maximal runs of non-whitespace
characters, in order; no empty tokens. -/
def splitWsAux (s : List Char) (acc : List Char) : List (List Char) :=
  match s with
  | [] => if acc = [] then [] else [acc.reverse]
  | c :: rest =>
    if c.isWhitespace then
      if acc = [] then splitWsAux rest []
      else acc.reverse :: splitWsAux rest []
    else
      splitWsAux rest (c :: acc)

def splitWsList (s : List Char) : List (List Char) :=
  splitWsAux s []

/-- Model of Rust `str::starts_with` on string literals. -/
def rustStartsWith (s p : String) : Bool :=
  p.data.isPrefixOf s.data

/-- Model of Rust `str::parse::<i32>()`: optional sign, one or more ASCII
digits, value within the i32 range; `none` on any other input. -/
def parseI32 (s : String) : Option Int :=
  match s.data with
  | [] => none
  | cs =>
    let signed : Bool × List Char :=
      match cs with
      | '+' :: r => (false, r)
      | '-' :: r => (true, r)
      | _ => (false, cs)
    let ds := signed.2
    if ds = [] then none
    else if ds.all Char.isDigit then
      let n : Int := ds.foldl (fun acc c => acc * 10 + ((c.toNat : Int) - 48)) 0
      let v : Int := if signed.1 then -n else n
      if -2147483648 ≤ v ∧ v ≤ 2147483647 then some v else none
    else none

/-! ## Model of serde_json

The program exchanges JSON values of a very restricted shape; the model
implements the JSON grammar with integer-only numerals and the
single-character string escapes. -/

inductive Json where
  | jnull : Json
  | jbool : Bool → Json
  | jnum : Int → Json
  | jstr : String → Json
  | jarr : List Json → Json
  | jobj : List (String × Json) → Json

/-- JSON insignificant whitespace (RFC 8259: space, tab, LF, CR). -/
def skipJsonWs (s : List Char) : List Char :=
  match s with
  | c :: rest =>
    if c = ' ' ∨ c = '\t' ∨ c = '\n' ∨ c = '\r' then skipJsonWs rest
    else c :: rest
  | [] => []

/-- Parse the body of a JSON string literal, the opening quote already
consumed; returns the decoded content and the input after the closing
quote. -/
def parseStrBody : List Char → Option (List Char × List Char)
  | [] => none
  | '"' :: rest => some ([], rest)
  | '\\' :: rest =>
    match rest with
    | [] => none
    | e :: rest2 =>
      let dec : Option Char :=
        if e = '"' then some '"'
        else if e = '\\' then some '\\'
        else if e = '/' then some '/'
        else if e = 'n' then some '\n'
        else if e = 't' then some '\t'
        else if e = 'r' then some '\r'
        else if e = 'b' then some (Char.ofNat 8)
        else if e = 'f' then some (Char.ofNat 12)
        else none
      match dec with
      | some d => (parseStrBody rest2).map (fun p => (d :: p.1, p.2))
      | none => none
  | c :: rest =>
    if c.toNat < 32 then none
    else (parseStrBody rest).map (fun p => (c :: p.1, p.2))

/-- Longest prefix of ASCII digits. -/
def takeDigits (s : List Char) : List Char × List Char :=
  match s with
  | c :: rest =>
    if c.isDigit then
      let p := takeDigits rest
      (c :: p.1, p.2)
    else ([], s)
  | [] => ([], [])

/-- Parse a JSON integer numeral (optional minus, no leading zeros, no
fraction or exponent in this model). -/
def parseJsonNum (s : List Char) : Option (Int × List Char) :=
  let signed : Bool × List Char :=
    match s with
    | '-' :: r => (true, r)
    | _ => (false, s)
  match takeDigits signed.2 with
  | ([], _) => none
  | (ds, rest) =>
    if ds.length > 1 ∧ ds.headD '0' = '0' then none
    else
      match rest with
      | c :: _ =>
        if c = '.' ∨ c = 'e' ∨ c = 'E' then none
        else
          let n : Int := ds.foldl (fun acc c => acc * 10 + ((c.toNat : Int) - 48)) 0
          some (if signed.1 then -n else n, rest)
      | [] =>
        let n : Int := ds.foldl (fun acc c => acc * 10 + ((c.toNat : Int) - 48)) 0
        some (if signed.1 then -n else n, rest)

def expectLit (lit : List Char) (s : List Char) : Option (List Char) :=
  if lit.isPrefixOf s then some (s.drop lit.length) else none

mutual

/-- Fueled JSON value parser; consumes leading whitespace. -/
def parseJsonVal : Nat → List Char → Option (Json × List Char)
  | 0, _ => none
  | fuel + 1, s =>
    match skipJsonWs s with
    | [] => none
    | c :: rest =>
      if c = 'n' then (expectLit ['u','l','l'] rest).map (fun r => (Json.jnull, r))
      else if c = 't' then (expectLit ['r','u','e'] rest).map (fun r => (Json.jbool true, r))
      else if c = 'f' then (expectLit ['a','l','s','e'] rest).map (fun r => (Json.jbool false, r))
      else if c = '"' then (parseStrBody rest).map (fun p => (Json.jstr (String.mk p.1), p.2))
      else if c = '[' then
        match skipJsonWs rest with
        | ']' :: r2 => some (Json.jarr [], r2)
        | _ => (parseJsonItems fuel rest).map (fun p => (Json.jarr p.1, p.2))
      else if c = '{' then
        match skipJsonWs rest with
        | '}' :: r2 => some (Json.jobj [], r2)
        | _ => (parseJsonMembers fuel rest).map (fun p => (Json.jobj p.1, p.2))
      else (parseJsonNum (c :: rest)).map (fun p => (Json.jnum p.1, p.2))

/-- Comma-separated array items followed by the closing bracket. -/
def parseJsonItems : Nat → List Char → Option (List Json × List Char)
  | 0, _ => none
  | fuel + 1, s =>
    match parseJsonVal fuel s with
    | none => none
    | some (v, rest) =>
      match skipJsonWs rest with
      | ',' :: r2 => (parseJsonItems fuel r2).map (fun p => (v :: p.1, p.2))
      | ']' :: r2 => some ([v], r2)
      | _ => none

/-- Comma-separated object members followed by the closing brace. -/
def parseJsonMembers : Nat → List Char → Option (List (String × Json) × List Char)
  | 0, _ => none
  | fuel + 1, s =>
    match skipJsonWs s with
    | '"' :: rest =>
      match parseStrBody rest with
      | none => none
      | some (key, r2) =>
        match skipJsonWs r2 with
        | ':' :: r3 =>
          match parseJsonVal fuel r3 with
          | none => none
          | some (v, r4) =>
            match skipJsonWs r4 with
            | ',' :: r5 => (parseJsonMembers fuel r5).map (fun p => ((String.mk key, v) :: p.1, p.2))
            | '}' :: r5 => some ([(String.mk key, v)], r5)
            | _ => none
        | _ => none
    | _ => none

end

/-- Model of `serde_json` top-level parsing: one value, then only
whitespace. -/
def jsonParse (s : String) : Option Json :=
  match parseJsonVal (2 * s.length + 2) s.data with
  | some (v, rest) => if skipJsonWs rest = [] then some v else none
  | none => none

/-! ## The Task record and its serde instances -/

namespace Crud

/-- `struct Task` from the source: optional id, title, description. -/
structure Task where
  id : Option Int
  title : String
  description : String
deriving Repr, DecidableEq

end Crud

/-- Model of the derived `Deserialize` field loop for `Task`: walks the
object members tracking which known fields were already seen (duplicates
are an error), requires `title` and `description`, defaults `id` to
`None`, ignores unknown fields.  The id must be `null` or an integer in
the i32 range. -/
def readTaskFields (fields : List (String × Json)) (idF : Option (Option Int))
    (titleF descF : Option String) : Except String Crud.Task :=
  match fields with
  | [] =>
    match titleF, descF with
    | some t, some d => .ok ⟨idF.getD none, t, d⟩
    | none, _ => .error "missing field title"
    | _, none => .error "missing field description"
  | (k, v) :: rest =>
    if k = "id" then
      match idF with
      | some _ => .error "duplicate field id"
      | none =>
        match v with
        | .jnull => readTaskFields rest (some none) titleF descF
        | .jnum n =>
          if -2147483648 ≤ n ∧ n ≤ 2147483647 then
            readTaskFields rest (some (some n)) titleF descF
          else .error "id out of range"
        | _ => .error "invalid type for id"
    else if k = "title" then
      match titleF with
      | some _ => .error "duplicate field title"
      | none =>
        match v with
        | .jstr s => readTaskFields rest idF (some s) descF
        | _ => .error "invalid type for title"
    else if k = "description" then
      match descF with
      | some _ => .error "duplicate field description"
      | none =>
        match v with
        | .jstr s => readTaskFields rest idF titleF (some s)
        | _ => .error "invalid type for description"
    else readTaskFields rest idF titleF descF

def deserializeTask (j : Json) : Except String Crud.Task :=
  match j with
  | .jobj fields => readTaskFields fields none none none
  | _ => .error "invalid type: expected struct Task"

/-- Model of `serde_json::from_str::<Task>`. -/
def taskFromStr (s : String) : Except String Crud.Task :=
  match jsonParse s with
  | none => .error "invalid JSON"
  | some j => deserializeTask j

/-- serde_json string escaping: quote, backslash, and control characters
(the short escapes for 0x08..0x0D, `\u00XX` for the rest). -/
def hexDigit (n : Nat) : Char :=
  if n < 10 then Char.ofNat (48 + n) else Char.ofNat (87 + n)

def jsonEscapeChar (c : Char) : List Char :=
  if c = '"' then ['\\', '"']
  else if c = '\\' then ['\\', '\\']
  else if c.toNat < 32 then
    if c = '\n' then ['\\', 'n']
    else if c = '\r' then ['\\', 'r']
    else if c = '\t' then ['\\', 't']
    else if c.toNat = 8 then ['\\', 'b']
    else if c.toNat = 12 then ['\\', 'f']
    else ['\\', 'u', '0', '0', hexDigit (c.toNat / 16), hexDigit (c.toNat % 16)]
  else [c]

def escapeJsonStr (s : String) : String :=
  "\"" ++ String.mk (s.data.flatMap jsonEscapeChar) ++ "\""

/-- Model of `serde_json::to_string(&task)`: fields in declaration order,
`None` serialized as `null`. -/
def taskToJson (t : Crud.Task) : String :=
  "\x7b\"id\":" ++
    (match t.id with
     | none => "null"
     | some n => toString n) ++
    ",\"title\":" ++ escapeJsonStr t.title ++
    ",\"description\":" ++ escapeJsonStr t.description ++ "\x7d"

/-- Model of `serde_json::to_string(&tasks)` for a `Vec<Task>`. -/
def tasksToJson (ts : List Crud.Task) : String :=
  "[" ++ String.intercalate "," (ts.map taskToJson) ++ "]"

/-! ## Source translation: constants and parsing helpers -/

def OK_RESPONSE : String := "HTTP/1.1 200 OK\r\nContent-Type: application/json\r\n\r\n"
def NOT_FOUND : String := "HTTP/1.1 404 NOT FOUND\r\n\r\n"
def INTERNAL_ERROR : String := "HTTP/1.1 500 INTERNAL ERROR\r\n\r\n"

/-- `fn get_id(request: &str) -> &str`: split the whole request text on
"/", take segment index 2 (empty if absent), then its first
whitespace-delimited token (empty if none). -/
def get_id (request : String) : String :=
  String.mk ((splitWsList ((splitOnList ['/'] request.data).getD 2 [])).headD [])

/-- `fn get_task_request_body`: decode the last segment after splitting the
request text on the double-CRLF boundary. -/
def get_task_request_body (request : String) : Except String Crud.Task :=
  taskFromStr (String.mk (((splitOnList ['\r','\n','\r','\n'] request.data).getLast?).getD []))

/-- Modelled from the spec (§4.2), for comparison with `get_id`: the spec
says the id token is taken from the third "/"-separated segment of the
request's FIRST LINE.  The first line is the text before the first CRLF. -/
def get_id_firstline (request : String) : String :=
  String.mk ((splitWsList (((splitOnList ['/'] ((splitOnList ['\r','\n'] request.data).headD [])).getD 2 []))).headD [])

/-! ## Model of postgres: store state and statement semantics

The store is external to the program; it is modelled as an explicit state:
the set of existing table names and the rows of the `tasks` table (if that
table exists).  Every table in this model carries the column schema this
program declares: (id, title, description).  A row is (id, title,
description). -/

inductive DbError where
  | undefinedTable : DbError
  | undefinedColumn : DbError
  | rowCount : DbError
  | connectionFailure : DbError
deriving Repr, DecidableEq

structure Store where
  tables : List String
  rows : List (Int × String × String)
  nextId : Int
deriving Repr, DecidableEq

/-- Abstract model of `postgres::Client` as the program uses it: one
statement oracle per call site, each a pure function of the connection
state.  Mutating statements return the successor state together with the
affected-row count the driver reports. -/
structure Client (σ : Type) where
  st : σ
  execInsert : σ → String → String → Except DbError (σ × Nat)
  queryOneById : σ → Int → Except DbError (Int × String × String)
  queryAllRows : σ → Except DbError (List (Int × String × String))
  execUpdate : σ → String → String → Int → Except DbError (σ × Nat)
  execDelete : σ → Int → Except DbError (σ × Nat)

/-- Semantics of `INSERT INTO tasks (title, description) VALUES ($1, $2)`
against a store: errors unless the `tasks` table exists, else appends a row
with the next serial id, reporting 1 affected row. -/
def insertStmt (s : Store) (title desc : String) : Except DbError (Store × Nat) :=
  if s.tables.contains "tasks" then
    .ok ({ s with rows := s.rows ++ [(s.nextId, title, desc)], nextId := s.nextId + 1 }, 1)
  else .error .undefinedTable

/-- Semantics of `query_one("SELECT * FROM tasks WHERE id = $1")`: errors
unless the table exists and exactly one row matches. -/
def selectOneStmt (s : Store) (id : Int) : Except DbError (Int × String × String) :=
  if s.tables.contains "tasks" then
    match s.rows.filter (fun r => r.1 = id) with
    | [r] => .ok r
    | _ => .error .rowCount
  else .error .undefinedTable

/-- Semantics of `query("SELECT id, title, description FROM tasks")`. -/
def selectAllStmt (s : Store) : Except DbError (List (Int × String × String)) :=
  if s.tables.contains "tasks" then .ok s.rows else .error .undefinedTable

/-- Semantics of `UPDATE tasks SET name = $1, email = $2 WHERE id = $3`
against a store whose tables carry the declared schema: errors with
undefined-table when `tasks` is absent, and otherwise with
undefined-column, because the declared schema has no `name`/`email`
columns. -/
def updateStmt (s : Store) (_name _email : String) (_id : Int) :
    Except DbError (Store × Nat) :=
  if s.tables.contains "tasks" then .error .undefinedColumn
  else .error .undefinedTable

/-- Semantics of `DELETE FROM tasks WHERE id = $1`. -/
def deleteStmt (s : Store) (id : Int) : Except DbError (Store × Nat) :=
  if s.tables.contains "tasks" then
    let remaining := s.rows.filter (fun r => ¬ r.1 = id)
    .ok ({ s with rows := remaining }, s.rows.length - remaining.length)
  else .error .undefinedTable

/-- The connected client over a concrete store. -/
def pgClient (s : Store) : Client Store where
  st := s
  execInsert := insertStmt
  queryOneById := selectOneStmt
  queryAllRows := selectAllStmt
  execUpdate := updateStmt
  execDelete := deleteStmt

/-- `fn set_database()`: on a successful connection, issue
`CREATE TABLE IF NOT EXISTS taskss (id SERIAL PRIMARY KEY, title VARCHAR
NOT NULL, description VARCHAR NOT NULL)` — note the table name `taskss`. -/
def set_database (conn : Except DbError Store) : Except DbError Store :=
  match conn with
  | .ok s =>
    .ok (if s.tables.contains "taskss" then s
         else { s with tables := s.tables ++ ["taskss"] })
  | .error e => .error e

def emptyStore : Store := { tables := [], rows := [], nextId := 1 }

/-- The store right after a fresh startup: `set_database` against an empty
store. -/
def startupStore : Store := { tables := ["taskss"], rows := [], nextId := 1 }

/-! ## Source translation: the five operation handlers and the router

A handler either produces a `(status_line, content)` response pair or
panics (a `.unwrap()` on a failed statement).  Each handler receives the
outcome of its own `Client::connect(DB_URL, NoTls)` call. -/

inductive HandlerResult where
  | resp : String → String → HandlerResult
  | panicked : HandlerResult
deriving Repr, DecidableEq

/-- `fn handle_post_request`. -/
def handle_post_request {σ : Type} (conn : Except DbError (Client σ))
    (request : String) : HandlerResult :=
  match get_task_request_body request, conn with
  | .ok task, .ok client =>
    match client.execInsert client.st task.title task.description with
    | .ok _ => .resp OK_RESPONSE "User created"
    | .error _ => .panicked
  | _, _ => .resp INTERNAL_ERROR "Internal error"

/-- `fn handle_get_request`. -/
def handle_get_request {σ : Type} (conn : Except DbError (Client σ))
    (request : String) : HandlerResult :=
  match parseI32 (get_id request), conn with
  | some id, .ok client =>
    match client.queryOneById client.st id with
    | .ok (rid, title, desc) =>
      .resp OK_RESPONSE (taskToJson ⟨some rid, title, desc⟩)
    | .error _ => .resp NOT_FOUND "Task not found"
  | _, _ => .resp INTERNAL_ERROR "Internal error"

/-- `fn handle_get_all_request` (the request text is unused). -/
def handle_get_all_request {σ : Type} (conn : Except DbError (Client σ))
    (_request : String) : HandlerResult :=
  match conn with
  | .ok client =>
    match client.queryAllRows client.st with
    | .ok rows =>
      .resp OK_RESPONSE (tasksToJson (rows.map (fun r => ⟨some r.1, r.2.1, r.2.2⟩)))
    | .error _ => .panicked
  | .error _ => .resp INTERNAL_ERROR "Internal error"

/-- `fn handle_put_request`. -/
def handle_put_request {σ : Type} (conn : Except DbError (Client σ))
    (request : String) : HandlerResult :=
  match parseI32 (get_id request), get_task_request_body request, conn with
  | some id, .ok task, .ok client =>
    match client.execUpdate client.st task.title task.description id with
    | .ok _ => .resp OK_RESPONSE "User updated"
    | .error _ => .panicked
  | _, _, _ => .resp INTERNAL_ERROR "Internal error"

/-- `fn handle_delete_request`. -/
def handle_delete_request {σ : Type} (conn : Except DbError (Client σ))
    (request : String) : HandlerResult :=
  match parseI32 (get_id request), conn with
  | some id, .ok client =>
    match client.execDelete client.st id with
    | .ok (_, rows_affected) =>
      if rows_affected = 0 then .resp NOT_FOUND "User not found"
      else .resp OK_RESPONSE "User deleted"
    | .error _ => .panicked
  | _, _ => .resp INTERNAL_ERROR "Internal error"

/-- The routing decision of `handle_client`. -/
inductive Route where
  | create : Route
  | readOne : Route
  | readAll : Route
  | update : Route
  | delete : Route
  | notFound : Route
deriving Repr, DecidableEq

/-- The guard cascade of the `match` in `handle_client`. -/
def route (r : String) : Route :=
  if rustStartsWith r "POST /tasks" then .create
  else if rustStartsWith r "GET /tasks/" then .readOne
  else if rustStartsWith r "GET /tasks" then .readAll
  else if rustStartsWith r "PUT /tasks/" then .update
  else if rustStartsWith r "DELETE /tasks/" then .delete
  else .notFound

/-- The response computed by `handle_client` for a decoded request text,
given the outcome the dispatched handler's `Client::connect` call would
have. -/
def handle_client_response {σ : Type} (conn : Except DbError (Client σ))
    (r : String) : HandlerResult :=
  match route r with
  | .create => handle_post_request conn r
  | .readOne => handle_get_request conn r
  | .readAll => handle_get_all_request conn r
  | .update => handle_put_request conn r
  | .delete => handle_delete_request conn r
  | .notFound => .resp NOT_FOUND "404 not found"

/-! ## Auxiliary concrete clients for witnesses and counterexamples -/

/-- A stateless client whose mutating statements succeed reporting `n`
affected rows and whose queries return a fixed row. -/
def okClient (n : Nat) : Client Unit where
  st := ()
  execInsert := fun _ _ _ => .ok ((), 1)
  queryOneById := fun _ id => .ok (id, "t", "d")
  queryAllRows := fun _ => .ok []
  execUpdate := fun _ _ _ _ => .ok ((), n)
  execDelete := fun _ _ => .ok ((), n)

/-- A client whose every statement fails. -/
def failClient : Client Unit where
  st := ()
  execInsert := fun _ _ _ => .error .undefinedTable
  queryOneById := fun _ _ => .error .undefinedTable
  queryAllRows := fun _ => .error .undefinedTable
  execUpdate := fun _ _ _ _ => .error .undefinedTable
  execDelete := fun _ _ => .error .undefinedTable

/-! ## Shared concrete fixtures -/

def putReqA : String :=
  "PUT /tasks/3 HTTP/1.1\r\nHost: x\r\n\r\n\x7b\"title\":\"a\",\"description\":\"b\"\x7d"
def postReqA : String :=
  "POST /tasks HTTP/1.1\r\nHost: x\r\n\r\n\x7b\"title\":\"a\",\"description\":\"b\"\x7d"
def getReq5 : String := "GET /tasks/5 HTTP/1.1\r\n\r\n"
def delReq5 : String := "DELETE /tasks/5 HTTP/1.1\r\n\r\n"
def storeA : Store := { tables := ["tasks"], rows := [(5, "a", "b")], nextId := 6 }

/-! ## Claims -/

/-- C1: for every request routed to Update carrying a valid integer id and a
valid JSON body, with a successful store connection, the Update handler
executes the one update statement and — whenever the driver reports the
statement done with any affected-row count `n`, including `n = 0` —
responds OK with the static body "User updated", regardless of whether any
row matched the id. -/
theorem c1_update_ok_regardless_of_match {σ : Type} (c : Client σ) (r : String)
    (id : Int) (t : Crud.Task) (s' : σ) (n : Nat)
    (hid : parseI32 (get_id r) = some id)
    (hbody : get_task_request_body r = .ok t)
    (hexec : c.execUpdate c.st t.title t.description id = .ok (s', n)) :
    handle_put_request (.ok c) r = .resp OK_RESPONSE "User updated" := by
  unfold handle_put_request
  rw [hid, hbody]
  simp [hexec]

/-- C1 witness: a concrete Update request with id 3 and body
`(title: a, description: b)`, against a client whose update statement
succeeds matching zero rows. -/
theorem c1_witness :
    handle_put_request (.ok (okClient 0)) putReqA = .resp OK_RESPONSE "User updated" :=
  c1_update_ok_regardless_of_match (okClient 0) putReqA 3 ⟨none, "a", "b"⟩ () 0 rfl rfl rfl

/-- C2 counterexample: the claim says a failure to execute the store
statement collapses to the Internal-Error response.  At the concrete
Create request `postReqA` with a connected client whose insert statement
fails, the handler panics on `.unwrap()` and sends no response at all. -/
theorem c2_counterexample :
    handle_post_request (.ok failClient) postReqA = .panicked ∧
    HandlerResult.panicked ≠ .resp INTERNAL_ERROR "Internal error" := by
  constructor
  · rfl
  · intro h
    exact HandlerResult.noConfusion h

/-- C2 amended: a failure to parse the id, decode the body, or connect to
the store collapses, for every handler, to the single Internal-Error
response (status 500, static body "Internal error"), and that failure is
fatal only to the request (the handler still returns a response).  A store
STATEMENT failure, by contrast, does not produce the Internal-Error
response: Create, ReadAll, Update and Delete panic on `.unwrap()` and send
no response, while ReadOne maps any `query_one` error to the Not-Found
response. -/
theorem c2_failure_collapse :
    (∀ {σ : Type} (conn : Except DbError (Client σ)) (r : String),
      parseI32 (get_id r) = none →
        handle_get_request conn r = .resp INTERNAL_ERROR "Internal error" ∧
        handle_put_request conn r = .resp INTERNAL_ERROR "Internal error" ∧
        handle_delete_request conn r = .resp INTERNAL_ERROR "Internal error") ∧
    (∀ {σ : Type} (conn : Except DbError (Client σ)) (r : String) (e : String),
      get_task_request_body r = .error e →
        handle_post_request conn r = .resp INTERNAL_ERROR "Internal error" ∧
        handle_put_request conn r = .resp INTERNAL_ERROR "Internal error") ∧
    (∀ (r : String) (e : DbError),
      handle_post_request (σ := Unit) (.error e) r = .resp INTERNAL_ERROR "Internal error" ∧
      handle_get_request (σ := Unit) (.error e) r = .resp INTERNAL_ERROR "Internal error" ∧
      handle_get_all_request (σ := Unit) (.error e) r = .resp INTERNAL_ERROR "Internal error" ∧
      handle_put_request (σ := Unit) (.error e) r = .resp INTERNAL_ERROR "Internal error" ∧
      handle_delete_request (σ := Unit) (.error e) r = .resp INTERNAL_ERROR "Internal error") ∧
    (∀ {σ : Type} (c : Client σ) (r : String) (t : Crud.Task) (e : DbError),
      get_task_request_body r = .ok t →
      c.execInsert c.st t.title t.description = .error e →
        handle_post_request (.ok c) r = .panicked) ∧
    (∀ {σ : Type} (c : Client σ) (r : String) (e : DbError),
      c.queryAllRows c.st = .error e →
        handle_get_all_request (.ok c) r = .panicked) ∧
    (∀ {σ : Type} (c : Client σ) (r : String) (id : Int) (t : Crud.Task) (e : DbError),
      parseI32 (get_id r) = some id →
      get_task_request_body r = .ok t →
      c.execUpdate c.st t.title t.description id = .error e →
        handle_put_request (.ok c) r = .panicked) ∧
    (∀ {σ : Type} (c : Client σ) (r : String) (id : Int) (e : DbError),
      parseI32 (get_id r) = some id →
      c.execDelete c.st id = .error e →
        handle_delete_request (.ok c) r = .panicked) ∧
    (∀ {σ : Type} (c : Client σ) (r : String) (id : Int) (e : DbError),
      parseI32 (get_id r) = some id →
      c.queryOneById c.st id = .error e →
        handle_get_request (.ok c) r = .resp NOT_FOUND "Task not found") := by
  refine ⟨?_, ?_, ?_, ?_, ?_, ?_, ?_, ?_⟩
  · intro σ conn r h
    refine ⟨?_, ?_, ?_⟩
    · cases conn <;> simp [handle_get_request, h]
    · cases hb : get_task_request_body r <;> cases conn <;>
        simp [handle_put_request, h, hb]
    · cases conn <;> simp [handle_delete_request, h]
  · intro σ conn r e h
    constructor
    · cases conn <;> simp [handle_post_request, h]
    · cases hp : parseI32 (get_id r) <;> cases conn <;>
        simp [handle_put_request, h, hp]
  · intro r e
    refine ⟨?_, ?_, ?_, ?_, ?_⟩
    · cases hb : get_task_request_body r <;> simp [handle_post_request, hb]
    · cases hp : parseI32 (get_id r) <;> simp [handle_get_request, hp]
    · simp [handle_get_all_request]
    · cases hp : parseI32 (get_id r) <;> cases hb : get_task_request_body r <;>
        simp [handle_put_request, hp, hb]
    · cases hp : parseI32 (get_id r) <;> simp [handle_delete_request, hp]
  · intro σ c r t e hb hexec
    simp [handle_post_request, hb, hexec]
  · intro σ c r e hq
    simp [handle_get_all_request, hq]
  · intro σ c r id t e hp hb hexec
    simp [handle_put_request, hp, hb, hexec]
  · intro σ c r id e hp hexec
    simp [handle_delete_request, hp, hexec]
  · intro σ c r id e hp hq
    simp [handle_get_request, hp, hq]

/-- C2 witness: the amended failure taxonomy at concrete inputs: a
non-integer id gives Internal-Error on ReadOne, a connection failure gives
Internal-Error on Create, and a failing delete statement panics. -/
theorem c2_witness :
    handle_get_request (σ := Unit) (.ok (okClient 1)) "GET /tasks/abc HTTP/1.1\r\n\r\n" =
      .resp INTERNAL_ERROR "Internal error" ∧
    handle_post_request (σ := Unit) (.error .connectionFailure) postReqA =
      .resp INTERNAL_ERROR "Internal error" ∧
    handle_delete_request (.ok failClient) delReq5 = .panicked :=
  ⟨(c2_failure_collapse.1 (.ok (okClient 1)) "GET /tasks/abc HTTP/1.1\r\n\r\n" rfl).1,
   (c2_failure_collapse.2.2.1 postReqA .connectionFailure).1,
   c2_failure_collapse.2.2.2.2.2.2.1 failClient delReq5 5 .undefinedTable rfl rfl⟩

/-- C3: the schema initializer creates table "taskss" while every handler
statement targets table "tasks".  Against the store produced by startup
(only "taskss" exists), every handler statement returns an error;
Create, ReadAll, Update and Delete then panic on `.unwrap()` and send no
response, while ReadOne maps the `query_one` error to the Not-Found
response. -/
theorem c3_taskss_tasks_mismatch :
    set_database (.ok emptyStore) = .ok startupStore ∧
    startupStore.tables = ["taskss"] ∧
    (∀ a b : String, insertStmt startupStore a b = .error .undefinedTable) ∧
    (∀ i : Int, selectOneStmt startupStore i = .error .undefinedTable) ∧
    selectAllStmt startupStore = .error .undefinedTable ∧
    (∀ (a b : String) (i : Int), updateStmt startupStore a b i = .error .undefinedTable) ∧
    (∀ i : Int, deleteStmt startupStore i = .error .undefinedTable) ∧
    (∀ (r : String) (t : Crud.Task), get_task_request_body r = .ok t →
      handle_post_request (.ok (pgClient startupStore)) r = .panicked) ∧
    (∀ r : String, handle_get_all_request (.ok (pgClient startupStore)) r = .panicked) ∧
    (∀ (r : String) (id : Int) (t : Crud.Task),
      parseI32 (get_id r) = some id → get_task_request_body r = .ok t →
      handle_put_request (.ok (pgClient startupStore)) r = .panicked) ∧
    (∀ (r : String) (id : Int), parseI32 (get_id r) = some id →
      handle_delete_request (.ok (pgClient startupStore)) r = .panicked) ∧
    (∀ (r : String) (id : Int), parseI32 (get_id r) = some id →
      handle_get_request (.ok (pgClient startupStore)) r = .resp NOT_FOUND "Task not found") := by
  refine ⟨rfl, rfl, fun a b => rfl, fun i => rfl, rfl, fun a b i => rfl, fun i => rfl,
    ?_, ?_, ?_, ?_, ?_⟩
  · intro r t hb
    simp [handle_post_request, hb, pgClient]
    rw [show insertStmt startupStore t.title t.description = .error .undefinedTable from rfl]
  · intro r
    simp [handle_get_all_request, pgClient]
    rw [show selectAllStmt startupStore = .error .undefinedTable from rfl]
  · intro r id t hp hb
    simp [handle_put_request, hp, hb, pgClient]
    rw [show updateStmt startupStore t.title t.description id = .error .undefinedTable from rfl]
  · intro r id hp
    simp [handle_delete_request, hp, pgClient]
    rw [show deleteStmt startupStore id = .error .undefinedTable from rfl]
  · intro r id hp
    simp [handle_get_request, hp, pgClient]
    rw [show selectOneStmt startupStore id = .error .undefinedTable from rfl]

/-- C3 witness: the mismatch observed on concrete requests against the
startup store. -/
theorem c3_witness :
    handle_post_request (.ok (pgClient startupStore)) postReqA = .panicked ∧
    handle_get_request (.ok (pgClient startupStore)) getReq5 =
      .resp NOT_FOUND "Task not found" :=
  ⟨(c3_taskss_tasks_mismatch.2.2.2.2.2.2.2.1) postReqA ⟨none, "a", "b"⟩ rfl,
   (c3_taskss_tasks_mismatch.2.2.2.2.2.2.2.2.2.2.2) getReq5 5 rfl⟩

/-- Helper: a string cannot simultaneously extend two prefixes of which
neither is a prefix of the other. -/
theorem prefixConflict {r p q : String} (hp : rustStartsWith r p = true)
    (hq : rustStartsWith r q = true) (hlen : p.data.length ≤ q.data.length)
    (hnot : p.data.isPrefixOf q.data = false) : False := by
  unfold rustStartsWith at hp hq
  have hpq := List.prefix_of_prefix_length_le (List.isPrefixOf_iff_prefix.mp hp)
    (List.isPrefixOf_iff_prefix.mp hq) hlen
  rw [← List.isPrefixOf_iff_prefix] at hpq
  rw [hnot] at hpq
  exact Bool.noConfusion hpq

/-- C4: the router inspects the raw request text and selects exactly one
operation by case-sensitive literal prefix match, in the source's priority
order; the characterization is exact: Create iff the text starts with
"POST /tasks", ReadOne iff "GET /tasks/", ReadAll iff "GET /tasks" but not
"GET /tasks/", Update iff "PUT /tasks/", Delete iff "DELETE /tasks/", and
any other request receives the Not-Found response with body
"404 not found". -/
theorem c4_routing (r : String) :
    (route r = .create ↔ rustStartsWith r "POST /tasks" = true) ∧
    (route r = .readOne ↔ rustStartsWith r "GET /tasks/" = true) ∧
    (route r = .readAll ↔
      (rustStartsWith r "GET /tasks" = true ∧ ¬ rustStartsWith r "GET /tasks/" = true)) ∧
    (route r = .update ↔ rustStartsWith r "PUT /tasks/" = true) ∧
    (route r = .delete ↔ rustStartsWith r "DELETE /tasks/" = true) ∧
    (route r = .notFound ↔
      (¬ rustStartsWith r "POST /tasks" = true ∧ ¬ rustStartsWith r "GET /tasks" = true ∧
       ¬ rustStartsWith r "PUT /tasks/" = true ∧ ¬ rustStartsWith r "DELETE /tasks/" = true)) ∧
    (route r = .notFound →
      ∀ {σ : Type} (conn : Except DbError (Client σ)),
        handle_client_response conn r = .resp NOT_FOUND "404 not found") := by
  have hone : rustStartsWith r "GET /tasks/" = true → rustStartsWith r "GET /tasks" = true := by
    intro h
    unfold rustStartsWith at h ⊢
    have h' : "GET /tasks/".data <+: r.data := List.isPrefixOf_iff_prefix.mp h
    have hsub : "GET /tasks".data <+: "GET /tasks/".data :=
      List.isPrefixOf_iff_prefix.mp (by decide)
    exact List.isPrefixOf_iff_prefix.mpr (hsub.trans h')
  by_cases h1 : rustStartsWith r "POST /tasks" = true
  · have h2 : ¬ rustStartsWith r "GET /tasks/" = true :=
      fun h => prefixConflict h h1 (by decide) (by decide)
    have h3 : ¬ rustStartsWith r "GET /tasks" = true :=
      fun h => prefixConflict h h1 (by decide) (by decide)
    have h4 : ¬ rustStartsWith r "PUT /tasks/" = true :=
      fun h => prefixConflict h h1 (by decide) (by decide)
    have h5 : ¬ rustStartsWith r "DELETE /tasks/" = true :=
      fun h => prefixConflict h1 h (by decide) (by decide)
    simp [route, h1, h2, h3, h4, h5]
  · by_cases h2 : rustStartsWith r "GET /tasks/" = true
    · have h3 : rustStartsWith r "GET /tasks" = true := hone h2
      have h4 : ¬ rustStartsWith r "PUT /tasks/" = true :=
        fun h => prefixConflict h h2 (by decide) (by decide)
      have h5 : ¬ rustStartsWith r "DELETE /tasks/" = true :=
        fun h => prefixConflict h2 h (by decide) (by decide)
      simp [route, h1, h2, h3, h4, h5]
    · by_cases h3 : rustStartsWith r "GET /tasks" = true
      · have h4 : ¬ rustStartsWith r "PUT /tasks/" = true :=
          fun h => prefixConflict h3 h (by decide) (by decide)
        have h5 : ¬ rustStartsWith r "DELETE /tasks/" = true :=
          fun h => prefixConflict h3 h (by decide) (by decide)
        simp [route, h1, h2, h3, h4, h5]
      · by_cases h4 : rustStartsWith r "PUT /tasks/" = true
        · have h5 : ¬ rustStartsWith r "DELETE /tasks/" = true :=
            fun h => prefixConflict h4 h (by decide) (by decide)
          simp [route, h1, h2, h3, h4, h5]
        · by_cases h5 : rustStartsWith r "DELETE /tasks/" = true
          · simp [route, h1, h2, h3, h4, h5]
          · simp [route, h1, h2, h3, h4, h5, handle_client_response]

/-- C4 witness: the characterization applied to a concrete unmatched,
case-mismatched request ("get" is not "GET"): it routes to Not-Found and
receives the 404 response. -/
theorem c4_witness :
    route "get /tasks HTTP/1.1" = .notFound ∧
    handle_client_response (σ := Unit) (.ok (okClient 1)) "get /tasks HTTP/1.1" =
      .resp NOT_FOUND "404 not found" := by
  have h := c4_routing "get /tasks HTTP/1.1"
  have hnf : route "get /tasks HTTP/1.1" = .notFound :=
    (h.2.2.2.2.2.1).mpr (by refine ⟨?_, ?_, ?_, ?_⟩ <;> decide)
  exact ⟨hnf, h.2.2.2.2.2.2 hnf (.ok (okClient 1))⟩

/-- C5: for a Delete request with a valid integer id and a successful
connection, when the delete statement reports `n` affected rows the
handler responds Not-Found if `n = 0` and OK "User deleted" otherwise;
and concretely, deleting id 5 twice from a store holding exactly that row
yields OK first and Not-Found second. -/
theorem c5_delete_semantics :
    (∀ {σ : Type} (c : Client σ) (r : String) (id : Int) (s' : σ) (n : Nat),
      parseI32 (get_id r) = some id → c.execDelete c.st id = .ok (s', n) →
      ((n = 0 → handle_delete_request (.ok c) r = .resp NOT_FOUND "User not found") ∧
       (n ≠ 0 → handle_delete_request (.ok c) r = .resp OK_RESPONSE "User deleted"))) ∧
    (handle_delete_request (.ok (pgClient storeA)) delReq5 =
        .resp OK_RESPONSE "User deleted" ∧
      deleteStmt storeA 5 = .ok ({ storeA with rows := [] }, 1) ∧
      handle_delete_request (.ok (pgClient { storeA with rows := [] })) delReq5 =
        .resp NOT_FOUND "User not found") := by
  refine ⟨?_, rfl, rfl, rfl⟩
  intro σ c r id s' n hid hexec
  constructor
  · intro h0
    subst h0
    simp [handle_delete_request, hid, hexec]
  · intro hne
    simp [handle_delete_request, hid, hexec, hne]

/-- C5 witness: the general affected-rows dichotomy applied to the
concrete client reporting zero rows for the delete of id 5. -/
theorem c5_witness :
    handle_delete_request (.ok (okClient 0)) delReq5 = .resp NOT_FOUND "User not found" :=
  (c5_delete_semantics.1 (okClient 0) delReq5 5 () 0 rfl rfl).1 rfl

/-- C6: for a ReadOne request with a valid integer id and a successful
connection against the store, if no row matches the id the response is
Not-Found, and if exactly the row (id, title, description) matches the
response is OK with the JSON serialization of that Task. -/
theorem c6_read_one (s : Store) (r : String) (id : Int)
    (hid : parseI32 (get_id r) = some id) :
    (s.rows.filter (fun row => row.1 = id) = [] →
      handle_get_request (.ok (pgClient s)) r = .resp NOT_FOUND "Task not found") ∧
    (∀ title desc : String, s.tables.contains "tasks" = true →
      s.rows.filter (fun row => row.1 = id) = [(id, title, desc)] →
      handle_get_request (.ok (pgClient s)) r =
        .resp OK_RESPONSE (taskToJson ⟨some id, title, desc⟩)) := by
  constructor
  · intro hfilter
    by_cases hmem : "tasks" ∈ s.tables
    · simp [handle_get_request, hid, pgClient, selectOneStmt, hmem, hfilter]
    · simp [handle_get_request, hid, pgClient, selectOneStmt, hmem]
  · intro title desc ht hfilter
    have hmem : "tasks" ∈ s.tables := by simpa using ht
    simp [handle_get_request, hid, pgClient, selectOneStmt, hmem, hfilter, taskToJson]

/-- C6 witness: against the one-row store, reading id 5 returns the
serialized task and reading id 9 returns Not-Found. -/
theorem c6_witness :
    handle_get_request (.ok (pgClient storeA)) getReq5 =
      .resp OK_RESPONSE "\x7b\"id\":5,\"title\":\"a\",\"description\":\"b\"\x7d" ∧
    handle_get_request (.ok (pgClient storeA)) "GET /tasks/9 HTTP/1.1\r\n\r\n" =
      .resp NOT_FOUND "Task not found" :=
  ⟨(c6_read_one storeA getReq5 5 rfl).2 "a" "b" rfl rfl,
   (c6_read_one storeA "GET /tasks/9 HTTP/1.1\r\n\r\n" 9 rfl).1 rfl⟩

/-- C9: for every ReadAll request with a successful connection against a
store in which the `tasks` table exists, the response is OK with the JSON
array of all stored tasks; on an empty table it is OK with the empty JSON
array (not Not-Found). -/
theorem c9_read_all (s : Store) (r : String)
    (ht : s.tables.contains "tasks" = true) :
    handle_get_all_request (.ok (pgClient s)) r =
      .resp OK_RESPONSE
        (tasksToJson (s.rows.map (fun row => ⟨some row.1, row.2.1, row.2.2⟩))) ∧
    (s.rows = [] →
      handle_get_all_request (.ok (pgClient s)) r = .resp OK_RESPONSE "[]") := by
  have hmem : "tasks" ∈ s.tables := by simpa using ht
  constructor
  · simp [handle_get_all_request, pgClient, selectAllStmt, hmem]
  · intro hempty
    simp [handle_get_all_request, pgClient, selectAllStmt, hmem, hempty, tasksToJson]
    rfl

/-- C9 witness: ReadAll against the empty `tasks` table responds OK with
the empty JSON array, and against the one-row store with the one-element
array. -/
theorem c9_witness :
    handle_get_all_request (.ok (pgClient { tables := ["tasks"], rows := [], nextId := 1 }))
        "GET /tasks HTTP/1.1\r\n\r\n" = .resp OK_RESPONSE "[]" ∧
    handle_get_all_request (.ok (pgClient storeA)) "GET /tasks HTTP/1.1\r\n\r\n" =
      .resp OK_RESPONSE "[\x7b\"id\":5,\"title\":\"a\",\"description\":\"b\"\x7d]" :=
  ⟨(c9_read_all { tables := ["tasks"], rows := [], nextId := 1 }
      "GET /tasks HTTP/1.1\r\n\r\n" rfl).2 rfl,
   (c9_read_all storeA "GET /tasks HTTP/1.1\r\n\r\n" rfl).1⟩

/-- C7 counterexample: the claim says the id token comes from the third
"/"-separated segment of the request's FIRST LINE.  The source splits the
ENTIRE request text.  On "GET /tasks/\r\n7" the third segment of the whole
text is "\r\n7" whose first whitespace token is "7", while the first line
"GET /tasks/" has an empty third segment, so the first-line reading yields
"": the two extractions disagree, and the code even parses "7"
successfully where the claimed extraction would fail. -/
theorem c7_counterexample :
    get_id "GET /tasks/\r\n7" = "7" ∧
    get_id_firstline "GET /tasks/\r\n7" = "" ∧
    ("7" : String) ≠ "" ∧
    parseI32 (get_id "GET /tasks/\r\n7") = some 7 ∧
    parseI32 (get_id_firstline "GET /tasks/\r\n7") = none := by
  exact ⟨rfl, rfl, by decide, rfl, rfl⟩

/-- C7 amended: the identifier submitted to integer parsing equals the
first whitespace-delimited token of the third "/"-separated segment
(index 2) of the ENTIRE request text (headers and body included), or the
empty string if that segment is absent; when integer parsing of this
token fails, the handlers taking an id respond Internal-Error, not
Not-Found. -/
theorem c7_id_extraction :
    (∀ r : String, get_id r =
      String.mk ((splitWsList ((splitOnList ['/'] r.data).getD 2 [])).headD [])) ∧
    (∀ {σ : Type} (conn : Except DbError (Client σ)) (r : String),
      parseI32 (get_id r) = none →
        handle_get_request conn r = .resp INTERNAL_ERROR "Internal error" ∧
        handle_put_request conn r = .resp INTERNAL_ERROR "Internal error" ∧
        handle_delete_request conn r = .resp INTERNAL_ERROR "Internal error") ∧
    get_id "GET /tasks/abc HTTP/1.1\r\n\r\n" = "abc" ∧
    parseI32 "abc" = none := by
  refine ⟨fun r => rfl, ?_, rfl, rfl⟩
  intro σ conn r h
  refine ⟨?_, ?_, ?_⟩
  · cases conn <;> simp [handle_get_request, h]
  · cases hb : get_task_request_body r <;> cases conn <;>
      simp [handle_put_request, h, hb]
  · cases conn <;> simp [handle_delete_request, h]

/-- C7 witness: the amended extraction and error routing at the concrete
non-integer id request "/tasks/abc". -/
theorem c7_witness :
    handle_get_request (σ := Unit) (.ok (okClient 1)) "GET /tasks/abc HTTP/1.1\r\n\r\n" =
      .resp INTERNAL_ERROR "Internal error" :=
  (c7_id_extraction.2.1 (.ok (okClient 1)) "GET /tasks/abc HTTP/1.1\r\n\r\n" rfl).1

/-! Concrete request fixtures for the body-decoding claim. -/

def postReqWithId : String :=
  "POST /tasks HTTP/1.1\r\nHost: x\r\n\r\n\x7b\"id\":7,\"title\":\"a\",\"description\":\"b\"\x7d"
def postReqBadJson : String :=
  "POST /tasks HTTP/1.1\r\nHost: x\r\n\r\nnot json"
def postReqMissingField : String :=
  "POST /tasks HTTP/1.1\r\nHost: x\r\n\r\n\x7b\"title\":\"a\"\x7d"

/-- C8: the body is the last segment after splitting the request text on
the double-CRLF boundary, decoded as a JSON object with string fields
title and description; an id field is deserialized but never used by the
Create/Update handlers (their insert/update statements receive only title
and description, so responses are identical with and without it);
decoding failure — invalid JSON or missing fields — makes the handler
respond Internal-Error. -/
theorem c8_body_decoding :
    (∀ r : String, get_task_request_body r =
      taskFromStr
        (String.mk (((splitOnList ['\r','\n','\r','\n'] r.data).getLast?).getD []))) ∧
    (∀ {σ : Type} (conn : Except DbError (Client σ)) (r : String) (e : String),
      get_task_request_body r = .error e →
        handle_post_request conn r = .resp INTERNAL_ERROR "Internal error" ∧
        handle_put_request conn r = .resp INTERNAL_ERROR "Internal error") ∧
    get_task_request_body postReqA = .ok ⟨none, "a", "b"⟩ ∧
    get_task_request_body postReqWithId = .ok ⟨some 7, "a", "b"⟩ ∧
    (∀ {σ : Type} (c : Client σ),
      handle_post_request (.ok c) postReqWithId = handle_post_request (.ok c) postReqA) ∧
    get_task_request_body postReqBadJson = .error "invalid JSON" ∧
    get_task_request_body postReqMissingField = .error "missing field description" := by
  refine ⟨fun r => rfl, ?_, rfl, rfl, ?_, rfl, rfl⟩
  · intro σ conn r e h
    constructor
    · cases conn <;> simp [handle_post_request, h]
    · cases hp : parseI32 (get_id r) <;> cases conn <;>
        simp [handle_put_request, h, hp]
  · intro σ c
    simp only [handle_post_request,
      show get_task_request_body postReqWithId = .ok ⟨some 7, "a", "b"⟩ from rfl,
      show get_task_request_body postReqA = .ok ⟨none, "a", "b"⟩ from rfl]

/-- C8 witness: a malformed body and a missing-field body produce the
Internal-Error response on a concrete Create request. -/
theorem c8_witness :
    handle_post_request (σ := Unit) (.ok (okClient 1)) postReqBadJson =
      .resp INTERNAL_ERROR "Internal error" ∧
    handle_post_request (σ := Unit) (.ok (okClient 1)) postReqMissingField =
      .resp INTERNAL_ERROR "Internal error" :=
  ⟨(c8_body_decoding.2.1 (.ok (okClient 1)) postReqBadJson "invalid JSON" rfl).1,
   (c8_body_decoding.2.1 (.ok (okClient 1)) postReqMissingField
      "missing field description" rfl).1⟩

/-- Helper for C10: the split model never returns the empty list, so the
`.last().unwrap_or_default()` in the source always finds a segment. -/
theorem splitOnFuel_ne_nil (sep : List Char) (fuel : Nat) (s acc : List Char) :
    splitOnFuel sep fuel s acc ≠ [] := by
  induction fuel generalizing s acc with
  | zero => cases s <;> simp [splitOnFuel]
  | succ n ih =>
    cases s with
    | nil => simp [splitOnFuel]
    | cons c rest =>
      unfold splitOnFuel
      split
      · simp
      · exact ih rest (c :: acc)

/-- C10: the parsing helpers are total on every input string, including
the empty string, strings with no "/" separator and strings with no
double-CRLF boundary: the splits always produce at least one segment (so
the `unwrap_or_default` fallbacks never face a missing last element),
`get_id` returns a (possibly empty) string, and `get_task_request_body`
returns an Ok/Err value rather than panicking. -/
theorem c10_helpers_total :
    (∀ s : List Char, splitOnList ['/'] s ≠ []) ∧
    (∀ s : List Char, splitOnList ['\r','\n','\r','\n'] s ≠ []) ∧
    get_id "" = "" ∧
    get_id "no separators here" = "" ∧
    get_id "a/b" = "" ∧
    get_task_request_body "" = .error "invalid JSON" ∧
    get_task_request_body "no boundary" = .error "invalid JSON" ∧
    get_task_request_body postReqA = .ok ⟨none, "a", "b"⟩ :=
  ⟨fun s => splitOnFuel_ne_nil _ _ s [],
   fun s => splitOnFuel_ne_nil _ _ s [],
   rfl, rfl, rfl, rfl, rfl, rfl⟩

/-- C10 witness: the totality facts applied at the empty request. -/
theorem c10_witness :
    get_id "" = "" ∧ get_task_request_body "" = .error "invalid JSON" :=
  ⟨c10_helpers_total.2.2.1, c10_helpers_total.2.2.2.2.2.1⟩
